import Mathlib

/-!
Verification of the drive-by-wire node `dbw_node.py`
(ros/src/twist_controller/dbw_node.py) of the capstone project.

The node's mutable fields, its subscriber callbacks and one iteration of
the body of `DBWNode.loop` are embedded as pure Lean functions over an
explicit state record.  The `Controller.control` operation lives in
`twist_controller.py`, which is not among the sources; the loop-level
theorems therefore quantify over an arbitrary control function, and the
construction-time behaviour of the controller is modelled from the spec
where a claim needs it.
-/

/-- a ROS std_msgs/Bool message: a single boolean field named `data`. -/
structure BoolMsg where
  data : Bool

/-- a geometry_msgs/Vector3 message, as three rational coordinates. -/
structure Vec3 where
  x : ℚ
  y : ℚ
  z : ℚ

/-- a geometry_msgs/Twist: linear and angular velocity vectors. -/
structure Twist where
  linear : Vec3
  angular : Vec3

/-- a geometry_msgs/TwistStamped, reduced to the `twist` field the node reads. -/
structure TwistStamped where
  twist : Twist

/-- value held in the node's `dbw_enabled` field.  It is initialised to the
Python bool `True`; afterwards `dbw_enabled_cb` assigns the whole incoming
message object (`self.dbw_enabled = msg`, not `msg.data`), so the field can
also hold a `BoolMsg` object. -/
inductive DbwFlag where
  | pyBool (b : Bool)
  | msgObj (m : BoolMsg)

/-- Python truthiness of the `dbw_enabled` field: a bool is its own truth
value, and any message object is truthy regardless of its `data` field
(rospy message classes define no `__bool__` or `__nonzero__`). -/
def DbwFlag.truthy : DbwFlag → Bool
  | .pyBool b => b
  | .msgObj _ => true

/-- mutable fields of `DBWNode`, in the order `__init__` creates them. -/
structure DBWState where
  current_vel : Option ℚ
  current_ang_vel : Option ℚ
  linear_vel : Option ℚ
  angular_vel : Option ℚ
  dbw_enabled : DbwFlag
  throttle : ℚ
  steering : ℚ
  brake : ℚ

/-- the field values set at the end of `DBWNode.__init__`: the four velocity
fields are `None`, `dbw_enabled` is `True`, and the three outputs are `0`. -/
def initState : DBWState :=
  { current_vel := none
    current_ang_vel := none
    linear_vel := none
    angular_vel := none
    dbw_enabled := .pyBool true
    throttle := 0
    steering := 0
    brake := 0 }

/-- `DBWNode.dbw_enabled_cb`: stores the whole message object into
`self.dbw_enabled` (the source assigns `msg`, not `msg.data`). -/
def dbw_enabled_cb (s : DBWState) (msg : BoolMsg) : DBWState :=
  { s with dbw_enabled := .msgObj msg }

/-- `DBWNode.twist_cb`: stores `msg.twist.linear.x` into `linear_vel` and
`msg.twist.angular.z` into `angular_vel`. -/
def twist_cb (s : DBWState) (msg : TwistStamped) : DBWState :=
  { s with linear_vel := some msg.twist.linear.x
           angular_vel := some msg.twist.angular.z }

/-- `DBWNode.velocity_cb`: stores `msg.twist.linear.x` into `current_vel`. -/
def velocity_cb (s : DBWState) (msg : TwistStamped) : DBWState :=
  { s with current_vel := some msg.twist.linear.x }

/-- the module-level constant in dbw_node.py fixing the loop rate in Hz. -/
def TWIST_CONTROLLER_UPDATE_FREQUENCY : ℕ := 10

/-- type of `Controller.control`: it receives, in this order, the current
velocity, the node's `dbw_enabled` field, the linear velocity setpoint and
the angular velocity setpoint, and returns (throttle, brake, steer). -/
abbrev ControlFun := ℚ → DbwFlag → ℚ → ℚ → ℚ × ℚ × ℚ

/-- the loop's readiness test `not None in (self.current_vel, self.linear_vel,
self.angular_vel)`: all three fields are not `None`. -/
def ready (s : DBWState) : Bool :=
  s.current_vel.isSome && s.linear_vel.isSome && s.angular_vel.isSome

/-- state after the conditional control step of one loop iteration: when the
three inputs are all present, `control` is called on the stored values and
its triple is bound to `(self.throttle, self.brake, self.steering)`;
otherwise nothing changes. -/
def tickState (control : ControlFun) (s : DBWState) : DBWState :=
  match s.current_vel, s.linear_vel, s.angular_vel with
  | some cv, some lv, some av =>
      let out := control cv s.dbw_enabled lv av
      { s with throttle := out.1, brake := out.2.1, steering := out.2.2 }
  | _, _, _ => s

/-- number of `controller.control` invocations in one loop iteration: one
inside the readiness branch, zero otherwise. -/
def controlCallsOnTick (s : DBWState) : ℕ :=
  match s.current_vel, s.linear_vel, s.angular_vel with
  | some _, some _, some _ => 1
  | _, _, _ => 0

/-- observable outcome of one loop iteration. -/
structure TickResult where
  state : DBWState
  controlCalls : ℕ
  published : Option (ℚ × ℚ × ℚ)

/-- one iteration of the body of `DBWNode.loop`: the conditional control
step, then `self.publish(self.throttle, self.brake, self.steering)` exactly
when `if self.dbw_enabled:` is truthy. -/
def tick (control : ControlFun) (s : DBWState) : TickResult :=
  let s1 := tickState control s
  { state := s1
    controlCalls := controlCallsOnTick s
    published :=
      if s1.dbw_enabled.truthy then some (s1.throttle, s1.brake, s1.steering)
      else none }

/-- events the node reacts to: the three subscriptions and a loop iteration. -/
inductive Event where
  | dbwMsg (m : BoolMsg)
  | twistMsg (m : TwistStamped)
  | velMsg (m : TwistStamped)
  | loopTick

/-- effect of one event on the node state. -/
def applyEvent (control : ControlFun) (s : DBWState) : Event → DBWState
  | .dbwMsg m => dbw_enabled_cb s m
  | .twistMsg m => twist_cb s m
  | .velMsg m => velocity_cb s m
  | .loopTick => (tick control s).state

/-- run a list of events left to right from a start state. -/
def runEvents (control : ControlFun) (s : DBWState) : List Event → DBWState
  | [] => s
  | e :: es => runEvents control (applyEvent control s e) es

/-- whether an event list contains a `/current_velocity` message. -/
def hasVelMsg : List Event → Bool
  | [] => false
  | .velMsg _ :: _ => true
  | _ :: es => hasVelMsg es

/-- whether an event list contains a `/twist_cmd` message. -/
def hasTwistMsg : List Event → Bool
  | [] => false
  | .twistMsg _ :: _ => true
  | _ :: es => hasTwistMsg es

/-- the ten vehicle parameters passed to the Controller constructor. -/
structure VehicleParameters where
  vehicle_mass : ℚ
  fuel_capacity : ℚ
  brake_deadband : ℚ
  decel_limit : ℚ
  accel_limit : ℚ
  wheel_radius : ℚ
  wheel_base : ℚ
  steer_ratio : ℚ
  max_lat_accel : ℚ
  max_steer_angle : ℚ

/-- the default values the node supplies to `rospy.get_param` for each of the
ten parameters (dbw_node.py, `DBWNode.__init__`). -/
def defaultVehicleParameters : VehicleParameters :=
  { vehicle_mass := 1736.35
    fuel_capacity := 13.5
    brake_deadband := 0.1
    decel_limit := -5
    accel_limit := 1
    wheel_radius := 0.2413
    wheel_base := 2.8498
    steer_ratio := 14.8
    max_lat_accel := 3
    max_steer_angle := 8 }

/-- the data-model invariant on vehicle parameters:
decel_limit < 0 < accel_limit and wheel_radius, wheel_base, steer_ratio > 0. -/
def VehicleParameters.validB (p : VehicleParameters) : Bool :=
  decide (p.decel_limit < 0) && decide (0 < p.accel_limit) &&
  decide (0 < p.wheel_radius) && decide (0 < p.wheel_base) &&
  decide (0 < p.steer_ratio)

/-- a constructed controller, carrying its immutable parameters. -/
structure ControllerHandle where
  params : VehicleParameters

/-- Modelled from the spec: the `Controller` constructor lives in
`twist_controller.py`, which is not among the sources (dbw_node.py only
calls it).  Per the spec's error taxonomy, invalid vehicle parameters are a
fatal configuration error at construction — startup halts rather than
producing a controller — so construction yields `none` exactly when the
data-model invariant fails. -/
def Controller.mkChecked (p : VehicleParameters) : Option ControllerHandle :=
  if p.validB then some ⟨p⟩ else none

theorem tickState_current_vel (control : ControlFun) (s : DBWState) :
    (tickState control s).current_vel = s.current_vel := by
  unfold tickState
  rcases hc : s.current_vel with _ | cv <;>
    rcases hl : s.linear_vel with _ | lv <;>
      rcases ha : s.angular_vel with _ | av <;> simp [hc, hl, ha]

theorem tickState_linear_vel (control : ControlFun) (s : DBWState) :
    (tickState control s).linear_vel = s.linear_vel := by
  unfold tickState
  rcases hc : s.current_vel with _ | cv <;>
    rcases hl : s.linear_vel with _ | lv <;>
      rcases ha : s.angular_vel with _ | av <;> simp [hc, hl, ha]

theorem tickState_angular_vel (control : ControlFun) (s : DBWState) :
    (tickState control s).angular_vel = s.angular_vel := by
  unfold tickState
  rcases hc : s.current_vel with _ | cv <;>
    rcases hl : s.linear_vel with _ | lv <;>
      rcases ha : s.angular_vel with _ | av <;> simp [hc, hl, ha]

theorem tick_state_eq (control : ControlFun) (s : DBWState) :
    (tick control s).state = tickState control s := rfl

theorem controlCallsOnTick_eq_ready (s : DBWState) :
    controlCallsOnTick s = if ready s then 1 else 0 := by
  unfold controlCallsOnTick ready
  rcases hc : s.current_vel with _ | cv <;>
    rcases hl : s.linear_vel with _ | lv <;>
      rcases ha : s.angular_vel with _ | av <;> simp [hc, hl, ha]

theorem runEvents_current_vel (control : ControlFun) (es : List Event)
    (s : DBWState) :
    (runEvents control s es).current_vel.isSome
      = (s.current_vel.isSome || hasVelMsg es) := by
  induction es generalizing s with
  | nil => simp [runEvents, hasVelMsg]
  | cons e es ih =>
    cases e with
    | dbwMsg m => simp [runEvents, applyEvent, hasVelMsg, dbw_enabled_cb, ih]
    | twistMsg m => simp [runEvents, applyEvent, hasVelMsg, twist_cb, ih]
    | velMsg m => simp [runEvents, applyEvent, hasVelMsg, velocity_cb, ih]
    | loopTick =>
      simp [runEvents, applyEvent, hasVelMsg, ih, tick_state_eq,
        tickState_current_vel]

theorem runEvents_linear_vel (control : ControlFun) (es : List Event)
    (s : DBWState) :
    (runEvents control s es).linear_vel.isSome
      = (s.linear_vel.isSome || hasTwistMsg es) := by
  induction es generalizing s with
  | nil => simp [runEvents, hasTwistMsg]
  | cons e es ih =>
    cases e with
    | dbwMsg m => simp [runEvents, applyEvent, hasTwistMsg, dbw_enabled_cb, ih]
    | twistMsg m => simp [runEvents, applyEvent, hasTwistMsg, twist_cb, ih]
    | velMsg m => simp [runEvents, applyEvent, hasTwistMsg, velocity_cb, ih]
    | loopTick =>
      simp [runEvents, applyEvent, hasTwistMsg, ih, tick_state_eq,
        tickState_linear_vel]

theorem runEvents_angular_vel (control : ControlFun) (es : List Event)
    (s : DBWState) :
    (runEvents control s es).angular_vel.isSome
      = (s.angular_vel.isSome || hasTwistMsg es) := by
  induction es generalizing s with
  | nil => simp [runEvents, hasTwistMsg]
  | cons e es ih =>
    cases e with
    | dbwMsg m => simp [runEvents, applyEvent, hasTwistMsg, dbw_enabled_cb, ih]
    | twistMsg m => simp [runEvents, applyEvent, hasTwistMsg, twist_cb, ih]
    | velMsg m => simp [runEvents, applyEvent, hasTwistMsg, velocity_cb, ih]
    | loopTick =>
      simp [runEvents, applyEvent, hasTwistMsg, ih, tick_state_eq,
        tickState_angular_vel]

theorem tickState_dbw_enabled (control : ControlFun) (s : DBWState) :
    (tickState control s).dbw_enabled = s.dbw_enabled := by
  unfold tickState
  rcases hc : s.current_vel with _ | cv <;>
    rcases hl : s.linear_vel with _ | lv <;>
      rcases ha : s.angular_vel with _ | av <;> simp [hc, hl, ha]

/-- C1 fails on the code: after a disable message (data = false) on
/vehicle/dbw_enabled with no later enable message, the next loop tick still
publishes. `dbw_enabled_cb` stores the whole message object (`self.dbw_enabled
= msg`, not `msg.data`), and a message object is truthy regardless of its
data field, so `if self.dbw_enabled:` holds and the held triple (0, 0, 0) is
transmitted, for every control function. -/
theorem C1_publish_still_happens_after_disable (control : ControlFun) :
    (dbw_enabled_cb initState ⟨false⟩).dbw_enabled = DbwFlag.msgObj ⟨false⟩ ∧
    (tick control (dbw_enabled_cb initState ⟨false⟩)).published
      = some (0, 0, 0) :=
  ⟨rfl, rfl⟩

/-- C2: on every loop tick, controller.control is invoked exactly when the
current velocity, linear setpoint and angular setpoint are all not None;
equivalently, after any event history from the initial state, the next tick
runs control if and only if a /current_velocity message and a /twist_cmd
message have each arrived at least once — before that, control never runs. -/
theorem C2_control_iff_inputs_observed (control : ControlFun) :
    (∀ s : DBWState, (tick control s).controlCalls = 1 ↔
      (s.current_vel ≠ none ∧ s.linear_vel ≠ none ∧ s.angular_vel ≠ none)) ∧
    (∀ es : List Event,
      (tick control (runEvents control initState es)).controlCalls = 1 ↔
        (hasVelMsg es = true ∧ hasTwistMsg es = true)) := by
  constructor
  · intro s
    rw [show (tick control s).controlCalls = controlCallsOnTick s from rfl,
      controlCallsOnTick_eq_ready]
    unfold ready
    rcases hc : s.current_vel with _ | cv <;>
      rcases hl : s.linear_vel with _ | lv <;>
        rcases ha : s.angular_vel with _ | av <;> simp [hc, hl, ha]
  · intro es
    have hc := runEvents_current_vel control es initState
    have hl := runEvents_linear_vel control es initState
    have ha := runEvents_angular_vel control es initState
    simp only [show initState.current_vel = none from rfl,
      show initState.linear_vel = none from rfl,
      show initState.angular_vel = none from rfl,
      Option.isSome_none, Bool.false_or] at hc hl ha
    rw [show (tick control (runEvents control initState es)).controlCalls
          = controlCallsOnTick (runEvents control initState es) from rfl,
      controlCallsOnTick_eq_ready]
    unfold ready
    rcases hv : hasVelMsg es <;> rcases ht : hasTwistMsg es <;>
      simp [hc, hl, ha, hv, ht]

/-- C3: whether controller.control runs on a tick does not depend on the
enable flag: replacing the dbw_enabled field by any value leaves the number
of control invocations on that tick unchanged, so the outputs are still
computed while disabled and only publication is gated by the flag. -/
theorem C3_control_runs_regardless_of_flag (control : ControlFun)
    (s : DBWState) (f : DbwFlag) :
    (tick control { s with dbw_enabled := f }).controlCalls
      = (tick control s).controlCalls := by
  show controlCallsOnTick { s with dbw_enabled := f } = controlCallsOnTick s
  unfold controlCallsOnTick
  rcases hc : s.current_vel with _ | cv <;>
    rcases hl : s.linear_vel with _ | lv <;>
      rcases ha : s.angular_vel with _ | av <;> simp [hc, hl, ha]

/-- C4: constructing the controller with invalid vehicle parameters (zero
wheel_base, or non-negative decel_limit) is a fatal configuration error: the
spec-modelled checked constructor yields no controller, so startup halts
rather than producing a controller that emits control output. -/
theorem C4_invalid_params_fatal (p : VehicleParameters)
    (h : p.wheel_base = 0 ∨ 0 ≤ p.decel_limit) :
    Controller.mkChecked p = none := by
  have hv : p.validB = false := by
    unfold VehicleParameters.validB
    rcases h with h | h
    · have hw : ¬ (0 < p.wheel_base) := by rw [h]; exact lt_irrefl 0
      simp [hw]
    · have hd : ¬ (p.decel_limit < 0) := not_lt.mpr h
      simp [hd]
  simp [Controller.mkChecked, hv]

/-- C4 witness: the default parameters with wheel_base set to zero are
rejected at construction. -/
theorem C4_invalid_params_fatal_witness :
    Controller.mkChecked { defaultVehicleParameters with wheel_base := 0 }
      = none :=
  C4_invalid_params_fatal _ (Or.inl rfl)

/-- C5: every one of the ten vehicle parameters has the stated default value,
and the defaults satisfy the data-model invariant decel_limit < 0 <
accel_limit and wheel_radius, wheel_base, steer_ratio > 0. -/
theorem C5_defaults_exist_and_satisfy_invariant :
    defaultVehicleParameters.vehicle_mass = 1736.35 ∧
    defaultVehicleParameters.fuel_capacity = 13.5 ∧
    defaultVehicleParameters.brake_deadband = 0.1 ∧
    defaultVehicleParameters.decel_limit = -5 ∧
    defaultVehicleParameters.accel_limit = 1.0 ∧
    defaultVehicleParameters.wheel_radius = 0.2413 ∧
    defaultVehicleParameters.wheel_base = 2.8498 ∧
    defaultVehicleParameters.steer_ratio = 14.8 ∧
    defaultVehicleParameters.max_lat_accel = 3.0 ∧
    defaultVehicleParameters.max_steer_angle = 8.0 ∧
    defaultVehicleParameters.decel_limit < 0 ∧
    0 < defaultVehicleParameters.accel_limit ∧
    0 < defaultVehicleParameters.wheel_radius ∧
    0 < defaultVehicleParameters.wheel_base ∧
    0 < defaultVehicleParameters.steer_ratio ∧
    defaultVehicleParameters.validB = true := by
  refine ⟨?_, ?_, ?_, ?_, ?_, ?_, ?_, ?_, ?_, ?_, ?_, ?_, ?_, ?_, ?_, ?_⟩ <;>
    norm_num [defaultVehicleParameters, VehicleParameters.validB]

/-- C6: the configured loop frequency constant equals 10, hence is at least
10 Hz; each tick invokes control at most once — exactly once when the inputs
are ready — and when it runs, the invocation reads the most recently stored
value of each input field and writes the result into the output fields. -/
theorem C6_frequency_and_stored_inputs :
    TWIST_CONTROLLER_UPDATE_FREQUENCY = 10 ∧
    10 ≤ TWIST_CONTROLLER_UPDATE_FREQUENCY ∧
    (∀ (control : ControlFun) (s : DBWState),
      (tick control s).controlCalls = if ready s then 1 else 0) ∧
    (∀ (control : ControlFun) (cv lv av t0 st0 b0 : ℚ) (cav : Option ℚ)
        (f : DbwFlag),
      (tick control ⟨some cv, cav, some lv, some av, f, t0, st0, b0⟩).state
        = ⟨some cv, cav, some lv, some av, f,
            (control cv f lv av).1,
            (control cv f lv av).2.2,
            (control cv f lv av).2.1⟩) :=
  ⟨rfl, le_refl 10,
    fun _ s => controlCallsOnTick_eq_ready s,
    fun _ _ _ _ _ _ _ _ _ => rfl⟩

/-- C7: control is called with its arguments in the contract order (current
velocity, enable flag, linear velocity setpoint, angular velocity setpoint),
and the components of its result triple are bound in the order (throttle,
brake, steer) to the node's held output fields. -/
theorem C7_argument_and_binding_order (control : ControlFun)
    (cv lv av t0 st0 b0 : ℚ) (cav : Option ℚ) (f : DbwFlag) :
    ((tick control ⟨some cv, cav, some lv, some av, f, t0, st0, b0⟩).state.throttle
        = (control cv f lv av).1) ∧
    ((tick control ⟨some cv, cav, some lv, some av, f, t0, st0, b0⟩).state.brake
        = (control cv f lv av).2.1) ∧
    ((tick control ⟨some cv, cav, some lv, some av, f, t0, st0, b0⟩).state.steering
        = (control cv f lv av).2.2) :=
  ⟨rfl, rfl, rfl⟩

/-- C8: before any message on /vehicle/dbw_enabled the node treats autonomous
control as enabled — the flag is initialised to the Python bool True, which
is truthy, and neither the twist callback, the velocity callback nor a loop
tick changes it — so a tick from the initial state publishes the held
outputs, initially the triple (0, 0, 0). -/
theorem C8_initially_enabled_publishes_zero (control : ControlFun) :
    initState.dbw_enabled = DbwFlag.pyBool true ∧
    DbwFlag.truthy initState.dbw_enabled = true ∧
    initState.throttle = 0 ∧ initState.brake = 0 ∧ initState.steering = 0 ∧
    (tick control initState).published = some (0, 0, 0) ∧
    (∀ (s : DBWState) (m : TwistStamped),
      (twist_cb s m).dbw_enabled = s.dbw_enabled ∧
      (velocity_cb s m).dbw_enabled = s.dbw_enabled) ∧
    (∀ s : DBWState, (tick control s).state.dbw_enabled = s.dbw_enabled) :=
  ⟨rfl, rfl, rfl, rfl, rfl, rfl, fun _ _ => ⟨rfl, rfl⟩,
    fun s => tickState_dbw_enabled control s⟩

/-- C9: input readiness is monotone: the callbacks only ever store actual
values, so from any state in which the three inputs have been observed, any
further sequence of events preserves readiness, and control is invoked
(exactly once) on every later tick. -/
theorem C9_readiness_monotone (control : ControlFun) (s : DBWState)
    (es : List Event) (h : ready s = true) :
    ready (runEvents control s es) = true ∧
    (tick control (runEvents control s es)).controlCalls = 1 := by
  have hc := runEvents_current_vel control es s
  have hl := runEvents_linear_vel control es s
  have ha := runEvents_angular_vel control es s
  unfold ready at h
  simp only [Bool.and_eq_true] at h
  obtain ⟨⟨h1, h2⟩, h3⟩ := h
  have hr : ready (runEvents control s es) = true := by
    unfold ready
    rw [hc, hl, ha, h1, h2, h3]
    simp
  refine ⟨hr, ?_⟩
  rw [show (tick control (runEvents control s es)).controlCalls
        = controlCallsOnTick (runEvents control s es) from rfl,
    controlCallsOnTick_eq_ready, hr]
  rfl

/-- C9 witness: a concrete ready state stays ready across a tick, a disable
message and another tick, and the final tick still calls control once. -/
theorem C9_readiness_monotone_witness :
    ready (⟨some 1, none, some 2, some 3, .pyBool true, 0, 0, 0⟩ : DBWState)
        = true ∧
    (ready (runEvents (fun _ _ _ _ => (0, 0, 0))
          ⟨some 1, none, some 2, some 3, .pyBool true, 0, 0, 0⟩
          [Event.loopTick, Event.dbwMsg ⟨false⟩, Event.loopTick]) = true ∧
      (tick (fun _ _ _ _ => (0, 0, 0))
          (runEvents (fun _ _ _ _ => (0, 0, 0))
            ⟨some 1, none, some 2, some 3, .pyBool true, 0, 0, 0⟩
            [Event.loopTick, Event.dbwMsg ⟨false⟩,
              Event.loopTick])).controlCalls = 1) :=
  ⟨rfl, C9_readiness_monotone (fun _ _ _ _ => (0, 0, 0))
    ⟨some 1, none, some 2, some 3, .pyBool true, 0, 0, 0⟩
    [Event.loopTick, Event.dbwMsg ⟨false⟩, Event.loopTick] rfl⟩

/-- C10: on a tick where the enable flag is truthy but the three inputs are
not yet all observed, control does not run and the node still publishes its
currently held output triple (the zero triple if control has never run). -/
theorem C10_publishes_held_outputs_when_not_ready (control : ControlFun)
    (s : DBWState) (hen : s.dbw_enabled.truthy = true)
    (hnr : ready s = false) :
    (tick control s).controlCalls = 0 ∧
    (tick control s).published = some (s.throttle, s.brake, s.steering) := by
  have hstate : tickState control s = s := by
    unfold ready at hnr
    unfold tickState
    rcases hc : s.current_vel with _ | cv <;>
      rcases hl : s.linear_vel with _ | lv <;>
        rcases ha : s.angular_vel with _ | av <;>
          simp [hc, hl, ha] at hnr ⊢
  constructor
  · rw [show (tick control s).controlCalls = controlCallsOnTick s from rfl,
      controlCallsOnTick_eq_ready, hnr]
    rfl
  · have hp : (tick control s).published
        = if s.dbw_enabled.truthy
            then some (s.throttle, s.brake, s.steering) else none := by
      unfold tick
      rw [hstate]
    rw [hp, hen]
    simp

/-- C10 witness: from the initial state (flag truthy, inputs unobserved) a
tick runs no control call and publishes the held (0, 0, 0). -/
theorem C10_publishes_held_outputs_witness :
    DbwFlag.truthy initState.dbw_enabled = true ∧
    ready initState = false ∧
    ((tick (fun _ _ _ _ => (0, 0, 0)) initState).controlCalls = 0 ∧
      (tick (fun _ _ _ _ => (0, 0, 0)) initState).published
        = some (initState.throttle, initState.brake, initState.steering)) :=
  ⟨rfl, rfl,
    C10_publishes_held_outputs_when_not_ready (fun _ _ _ _ => (0, 0, 0))
      initState rfl rfl⟩
